import Mathlib

/-!
# Verification of the quran-renderer page-layout core

Shallow embedding of `src/core/quran_renderer.cpp` (and the metadata tables of
`src/core/quran_metadata.h`).  Pure numeric logic is translated over `ℚ`/`ℤ`/`ℕ`;
C++ `static_cast<int>` on a `double` is modelled as truncation toward zero;
the external HarfBuzz shaping engine and the Skia rasterizer are modelled as
oracle parameters (per the repository's own interface boundary).
-/

namespace QuranRenderer

/-- Truncation toward zero, the semantics of C++ `static_cast<int>` applied to
a non-NaN floating value (here modelled over `ℚ`). -/
def truncQ (q : ℚ) : ℤ := if 0 ≤ q then ⌊q⌋ else ⌈q⌉

/-! ## Line and page data model (`quran_renderer.cpp` lines 50-65) -/

/-- `enum class LineType` (line 50). -/
inductive LineType where
  | line
  | sura
  | bism
deriving DecidableEq, Repr

/-- `enum class JustType` (line 56). -/
inductive JustType where
  | just
  | center
deriving DecidableEq, Repr

/-- `struct QuranLine` (line 61).  The text is kept abstract as a `String`. -/
structure QuranLine where
  text : String
  line_type : LineType := .line
  just_type : JustType := .just
deriving DecidableEq, Repr

/-! ## Background luminance and default text color (lines 67-86) -/

/-- `calculateLuminance` (line 69): `(0.299 r + 0.587 g + 0.114 b) / 255`. -/
def calculateLuminance (r g b : ℕ) : ℚ :=
  (299/1000 * (r : ℚ) + 587/1000 * (g : ℚ) + 114/1000 * (b : ℚ)) / 255

/-- `isDarkBackground` (line 74): extracts R,G,B from a `0xRRGGBBAA` word and
tests `luminance < 0.5`. -/
def isDarkBackground (backgroundColor : ℕ) : Bool :=
  let r := (backgroundColor >>> 24) &&& 0xFF
  let g := (backgroundColor >>> 16) &&& 0xFF
  let b := (backgroundColor >>> 8) &&& 0xFF
  decide (calculateLuminance r g b < 1/2)

/-- An `hb_color_t` value; the four fields hold the four arguments of the
`HB_COLOR` macro in order (in HarfBuzz that order is blue, green, red,
alpha — the claims under verification never depend on the channel order,
only on which packed color a glyph resolves to). -/
structure HBColor where
  arg1 : ℕ
  arg2 : ℕ
  arg3 : ℕ
  arg4 : ℕ
deriving DecidableEq, Repr

/-- White text color `HB_COLOR(255,255,255,255)`. -/
def whiteColor : HBColor := ⟨255, 255, 255, 255⟩

/-- Black text color `HB_COLOR(0,0,0,255)`. -/
def blackColor : HBColor := ⟨0, 0, 0, 255⟩

/-- `getTextColorForBackground` (line 82): white for dark backgrounds,
black for light ones. -/
def getTextColorForBackground (backgroundColor : ℕ) : HBColor :=
  if isDarkBackground backgroundColor then whiteColor else blackColor

/-! ## Tajweed color detection and per-glyph color resolution
(lines 165-174 of `initialize`, lines 633-644 of `drawLine`) -/

/-- The tajweed threshold chosen in `initialize` (lines 169-174): fonts whose
GPOS lookup count exceeds 150 get threshold 152; otherwise the disabled
sentinel `0xFFFF` is kept. -/
def detectTajweedColorIndex (gposLookupCount : ℕ) : ℕ :=
  if gposLookupCount > 150 then 152 else 0xFFFF

/-- The per-glyph color resolution of `drawLine` (lines 633-644): the embedded
RGB packed in `base_codepoint` is used exactly when tajweed is active and the
glyph's `lookup_index` is at or above `tajweedcolorindex`; otherwise the
caller's default text color. -/
def resolveGlyphColor (useTajweed : Bool) (tajweedcolorindex : ℕ)
    (lookupIndex : ℕ) (baseCodepoint : ℕ) (defaultTextColor : HBColor) : HBColor :=
  if useTajweed ∧ lookupIndex ≥ tajweedcolorindex then
    ⟨(baseCodepoint >>> 8) &&& 0xff,
     (baseCodepoint >>> 16) &&& 0xff,
     (baseCodepoint >>> 24) &&& 0xff,
     255⟩
  else defaultTextColor

/-! ## Page geometry of `drawPage` (lines 695-751) -/

/-- The clamp applied to the requested font scale (line 706):
`max(0.5, min(2.0, fontScale))`. -/
def clampScale (fontScale : ℚ) : ℚ := max (1/2) (min 2 fontScale)

/-- The effective `char_height` of `drawPage` (lines 701-712):
`char_height = (int)((width / 17.0) * 0.9)`, then
`char_height = (int)(char_height * clampedScale)`, then an explicit positive
`fontSize` overrides the computed value verbatim. -/
def drawPageCharHeight (width : ℕ) (fontScale : ℚ) (fontSize : ℤ) : ℤ :=
  let ch := truncQ ((width : ℚ) / 17 * (9/10))
  let ch := truncQ ((ch : ℚ) * clampScale fontScale)
  if fontSize > 0 then fontSize else ch

/-- The inter-line pitch of `drawPage` (line 702): `inter_line = height / 15`
(C++ integer division).  The `lineHeightDivisor` configuration field is a
parameter of `drawPage` (line 662) but is never read in its body, so the
result does not depend on it. -/
def drawPageInterLine (height : ℕ) (lineHeightDivisor : ℚ) : ℕ := height / 15

/-- `calculateOptimalLineHeight` (lines 277-331).  The HarfBuzz measurement of
each line (`measureLineExtents(...).totalHeight`, in font units) is supplied
as the oracle list `measuredTotalHeights`; the function body is otherwise a
direct translation: one-step truncated `char_height`, `scale = char_height /
upem`, running maximum of the measured heights starting from 0, conversion to
pixels, 2% inflation, and the final `min` with `height / 15`.  (The source's
`x_padding` argument only feeds the measurement's trial width and is absorbed
by the oracle.) -/
def calculateOptimalLineHeight (measuredTotalHeights : List ℤ)
    (width height : ℕ) (fontScale : ℚ) (upem : ℕ) : ℤ :=
  let clamped := clampScale fontScale
  let charHeight := truncQ ((width : ℚ) / 17 * (9/10) * clamped)
  let scale : ℚ := (charHeight : ℚ) / (upem : ℚ)
  let maxTotalHeight := measuredTotalHeights.foldl (fun m h => if h > m then h else m) 0
  let maxHeightPixels := truncQ ((maxTotalHeight : ℚ) * scale)
  let requiredLineHeight := truncQ ((maxHeightPixels : ℚ) * (102/100))
  min requiredLineHeight ((height / 15 : ℕ) : ℤ)

/-! ## Justification decision of `drawLine` (lines 530-614) -/

/-- The filler codepoint: `const int spaceCodePoint = 3` (line 534). -/
def spaceCodePoint : ℕ := 3

/-- A shaped glyph as far as the width logic of `drawLine` observes it. -/
structure ShapedGlyph where
  codepoint : ℕ
  x_advance : ℤ
deriving DecidableEq, Repr

/-- `textWidth` (lines 563-570): sum of advances of non-filler glyphs. -/
def textWidthOf (glyphs : List ShapedGlyph) : ℤ :=
  (glyphs.filter (fun g => g.codepoint ≠ spaceCodePoint)).foldl
    (fun acc g => acc + g.x_advance) 0

/-- `nbSpaces` (lines 563-570): number of filler glyphs. -/
def nbSpacesOf (glyphs : List ShapedGlyph) : ℕ :=
  (glyphs.filter (fun g => g.codepoint = spaceCodePoint)).length

/-- `currentLineWidth` (lines 563-570): sum of all advances. -/
def currentLineWidthOf (glyphs : List ShapedGlyph) : ℤ :=
  glyphs.foldl (fun acc g => acc + g.x_advance) 0

/-- Outcome of the width-fitting decision of `drawLine`. -/
structure LineLayout where
  /-- `some ratio` when the too-wide branch ran `canvas->scale(ratio, ratio)`. -/
  shrinkRatio : Option ℚ
  applySpaceWidth : Bool
  spaceWidth : ℚ
deriving DecidableEq, Repr

/-- The width-fitting decision of `drawLine` (lines 572-591): if the total
advance exceeds the target, scale uniformly by `lineWidth / currentLineWidth`
(the `changeSize` flag is the constant `true`); otherwise, if the text-only
width falls short of the target, apply per-filler padding
`(lineWidth - textWidth) / nbSpaces` only when
`lineWidth - currentLineWidth > lineWidth * 0.01` and there is at least one
filler. -/
def decideJustification (glyphs : List ShapedGlyph) (lineWidth : ℚ) : LineLayout :=
  let textWidth := textWidthOf glyphs
  let nbSpaces := nbSpacesOf glyphs
  let currentLineWidth := currentLineWidthOf glyphs
  if (currentLineWidth : ℚ) > lineWidth then
    { shrinkRatio := some (lineWidth / (currentLineWidth : ℚ)),
      applySpaceWidth := false, spaceWidth := 0 }
  else if (textWidth : ℚ) < lineWidth then
    let gap := lineWidth - (currentLineWidth : ℚ)
    if gap > lineWidth * (1/100) ∧ nbSpaces > 0 then
      { shrinkRatio := none, applySpaceWidth := true,
        spaceWidth := (lineWidth - (textWidth : ℚ)) / (nbSpaces : ℚ) }
    else { shrinkRatio := none, applySpaceWidth := false, spaceWidth := 0 }
  else { shrinkRatio := none, applySpaceWidth := false, spaceWidth := 0 }

/-- The horizontal advance actually applied per glyph in the drawing loop
(lines 610-614): a filler glyph on a `Justify` line with padding active moves
by `spaceWidth`; every other glyph moves by its natural advance. -/
def glyphDrawAdvance (layout : LineLayout) (justType : JustType)
    (g : ShapedGlyph) : ℚ :=
  if g.codepoint = spaceCodePoint ∧ justType = JustType.just ∧ layout.applySpaceWidth then
    layout.spaceWidth
  else (g.x_advance : ℚ)

/-! ## Metadata tables (`quran_metadata.h`) and the C-API lookups
(`quran_renderer.cpp` lines 869-968) -/

/-- The numeric fields of `struct SurahData` (`quran_metadata.h` line 11). -/
structure SurahData where
  number : ℤ
  ayahCount : ℤ
  startAyah : ℤ
deriving DecidableEq, Repr

/-- `struct PageLocation` (`quran_metadata.h` line 263). -/
structure PageLocation where
  surahNumber : ℤ
  ayahNumber : ℤ
deriving DecidableEq, Repr

/-- `QURAN_SURAH_COUNT` (`quran_metadata.h` line 24). -/
def QURAN_SURAH_COUNT : ℤ := 114

/-- `QURAN_TOTAL_AYAHS` (`quran_metadata.h` line 25). -/
def QURAN_TOTAL_AYAHS : ℤ := 6236

/-- `QURAN_PAGE_COUNT` (`quran_metadata.h` line 26). -/
def QURAN_PAGE_COUNT : ℤ := 604

/-- `SURAH_DATA` (`quran_metadata.h` line 29): the numeric fields
`(number, ayahCount, startAyah)` of the 115-entry table (index 0 is the
unused placeholder); the name strings and revelation metadata are omitted
as no lookup under verification reads them. -/
def SURAH_DATA : List SurahData := [
  SurahData.mk 0 0 0, SurahData.mk 1 7 0, SurahData.mk 2 286 7, SurahData.mk 3 200 293,
  SurahData.mk 4 176 493, SurahData.mk 5 120 669, SurahData.mk 6 165 789, SurahData.mk 7 206 954,
  SurahData.mk 8 75 1160, SurahData.mk 9 129 1235, SurahData.mk 10 109 1364, SurahData.mk 11 123 1473,
  SurahData.mk 12 111 1596, SurahData.mk 13 43 1707, SurahData.mk 14 52 1750, SurahData.mk 15 99 1802,
  SurahData.mk 16 128 1901, SurahData.mk 17 111 2029, SurahData.mk 18 110 2140, SurahData.mk 19 98 2250,
  SurahData.mk 20 135 2348, SurahData.mk 21 112 2483, SurahData.mk 22 78 2595, SurahData.mk 23 118 2673,
  SurahData.mk 24 64 2791, SurahData.mk 25 77 2855, SurahData.mk 26 227 2932, SurahData.mk 27 93 3159,
  SurahData.mk 28 88 3252, SurahData.mk 29 69 3340, SurahData.mk 30 60 3409, SurahData.mk 31 34 3469,
  SurahData.mk 32 30 3503, SurahData.mk 33 73 3533, SurahData.mk 34 54 3606, SurahData.mk 35 45 3660,
  SurahData.mk 36 83 3705, SurahData.mk 37 182 3788, SurahData.mk 38 88 3970, SurahData.mk 39 75 4058,
  SurahData.mk 40 85 4133, SurahData.mk 41 54 4218, SurahData.mk 42 53 4272, SurahData.mk 43 89 4325,
  SurahData.mk 44 59 4414, SurahData.mk 45 37 4473, SurahData.mk 46 35 4510, SurahData.mk 47 38 4545,
  SurahData.mk 48 29 4583, SurahData.mk 49 18 4612, SurahData.mk 50 45 4630, SurahData.mk 51 60 4675,
  SurahData.mk 52 49 4735, SurahData.mk 53 62 4784, SurahData.mk 54 55 4846, SurahData.mk 55 78 4901,
  SurahData.mk 56 96 4979, SurahData.mk 57 29 5075, SurahData.mk 58 22 5104, SurahData.mk 59 24 5126,
  SurahData.mk 60 13 5150, SurahData.mk 61 14 5163, SurahData.mk 62 11 5177, SurahData.mk 63 11 5188,
  SurahData.mk 64 18 5199, SurahData.mk 65 12 5217, SurahData.mk 66 12 5229, SurahData.mk 67 30 5241,
  SurahData.mk 68 52 5271, SurahData.mk 69 52 5323, SurahData.mk 70 44 5375, SurahData.mk 71 28 5419,
  SurahData.mk 72 28 5447, SurahData.mk 73 20 5475, SurahData.mk 74 56 5495, SurahData.mk 75 40 5551,
  SurahData.mk 76 31 5591, SurahData.mk 77 50 5622, SurahData.mk 78 40 5672, SurahData.mk 79 46 5712,
  SurahData.mk 80 42 5758, SurahData.mk 81 29 5800, SurahData.mk 82 19 5829, SurahData.mk 83 36 5848,
  SurahData.mk 84 25 5884, SurahData.mk 85 22 5909, SurahData.mk 86 17 5931, SurahData.mk 87 19 5948,
  SurahData.mk 88 26 5967, SurahData.mk 89 30 5993, SurahData.mk 90 20 6023, SurahData.mk 91 15 6043,
  SurahData.mk 92 21 6058, SurahData.mk 93 11 6079, SurahData.mk 94 8 6090, SurahData.mk 95 8 6098,
  SurahData.mk 96 19 6106, SurahData.mk 97 5 6125, SurahData.mk 98 8 6130, SurahData.mk 99 8 6138,
  SurahData.mk 100 11 6146, SurahData.mk 101 11 6157, SurahData.mk 102 8 6168, SurahData.mk 103 3 6176,
  SurahData.mk 104 9 6179, SurahData.mk 105 5 6188, SurahData.mk 106 4 6193, SurahData.mk 107 7 6197,
  SurahData.mk 108 3 6204, SurahData.mk 109 6 6207, SurahData.mk 110 3 6213, SurahData.mk 111 5 6216,
  SurahData.mk 112 4 6221, SurahData.mk 113 5 6225, SurahData.mk 114 6 6230]

/-- `PAGE_LOCATIONS` (`quran_metadata.h` line 270): the first
`(surahNumber, ayahNumber)` of each of the 604 pages. -/
def PAGE_LOCATIONS : List PageLocation := [
  PageLocation.mk 1 1, PageLocation.mk 2 1, PageLocation.mk 2 6, PageLocation.mk 2 17, PageLocation.mk 2 25,
  PageLocation.mk 2 30, PageLocation.mk 2 38, PageLocation.mk 2 49, PageLocation.mk 2 58, PageLocation.mk 2 62,
  PageLocation.mk 2 70, PageLocation.mk 2 77, PageLocation.mk 2 84, PageLocation.mk 2 89, PageLocation.mk 2 94,
  PageLocation.mk 2 102, PageLocation.mk 2 106, PageLocation.mk 2 113, PageLocation.mk 2 120, PageLocation.mk 2 127,
  PageLocation.mk 2 135, PageLocation.mk 2 142, PageLocation.mk 2 146, PageLocation.mk 2 154, PageLocation.mk 2 164,
  PageLocation.mk 2 170, PageLocation.mk 2 177, PageLocation.mk 2 182, PageLocation.mk 2 187, PageLocation.mk 2 191,
  PageLocation.mk 2 197, PageLocation.mk 2 203, PageLocation.mk 2 211, PageLocation.mk 2 216, PageLocation.mk 2 220,
  PageLocation.mk 2 225, PageLocation.mk 2 231, PageLocation.mk 2 234, PageLocation.mk 2 238, PageLocation.mk 2 246,
  PageLocation.mk 2 249, PageLocation.mk 2 253, PageLocation.mk 2 257, PageLocation.mk 2 260, PageLocation.mk 2 265,
  PageLocation.mk 2 270, PageLocation.mk 2 275, PageLocation.mk 2 282, PageLocation.mk 2 283, PageLocation.mk 3 1,
  PageLocation.mk 3 10, PageLocation.mk 3 16, PageLocation.mk 3 23, PageLocation.mk 3 30, PageLocation.mk 3 38,
  PageLocation.mk 3 46, PageLocation.mk 3 53, PageLocation.mk 3 62, PageLocation.mk 3 71, PageLocation.mk 3 78,
  PageLocation.mk 3 84, PageLocation.mk 3 92, PageLocation.mk 3 101, PageLocation.mk 3 109, PageLocation.mk 3 116,
  PageLocation.mk 3 122, PageLocation.mk 3 133, PageLocation.mk 3 141, PageLocation.mk 3 149, PageLocation.mk 3 154,
  PageLocation.mk 3 158, PageLocation.mk 3 166, PageLocation.mk 3 174, PageLocation.mk 3 181, PageLocation.mk 3 187,
  PageLocation.mk 3 195, PageLocation.mk 4 1, PageLocation.mk 4 7, PageLocation.mk 4 12, PageLocation.mk 4 15,
  PageLocation.mk 4 20, PageLocation.mk 4 24, PageLocation.mk 4 27, PageLocation.mk 4 34, PageLocation.mk 4 38,
  PageLocation.mk 4 45, PageLocation.mk 4 52, PageLocation.mk 4 60, PageLocation.mk 4 66, PageLocation.mk 4 75,
  PageLocation.mk 4 80, PageLocation.mk 4 87, PageLocation.mk 4 92, PageLocation.mk 4 95, PageLocation.mk 4 102,
  PageLocation.mk 4 106, PageLocation.mk 4 114, PageLocation.mk 4 122, PageLocation.mk 4 128, PageLocation.mk 4 135,
  PageLocation.mk 4 141, PageLocation.mk 4 148, PageLocation.mk 4 155, PageLocation.mk 4 163, PageLocation.mk 4 171,
  PageLocation.mk 4 176, PageLocation.mk 5 3, PageLocation.mk 5 6, PageLocation.mk 5 10, PageLocation.mk 5 14,
  PageLocation.mk 5 18, PageLocation.mk 5 24, PageLocation.mk 5 32, PageLocation.mk 5 37, PageLocation.mk 5 42,
  PageLocation.mk 5 46, PageLocation.mk 5 51, PageLocation.mk 5 58, PageLocation.mk 5 65, PageLocation.mk 5 71,
  PageLocation.mk 5 77, PageLocation.mk 5 83, PageLocation.mk 5 90, PageLocation.mk 5 96, PageLocation.mk 5 104,
  PageLocation.mk 5 109, PageLocation.mk 5 114, PageLocation.mk 6 1, PageLocation.mk 6 9, PageLocation.mk 6 19,
  PageLocation.mk 6 28, PageLocation.mk 6 36, PageLocation.mk 6 45, PageLocation.mk 6 53, PageLocation.mk 6 60,
  PageLocation.mk 6 69, PageLocation.mk 6 74, PageLocation.mk 6 82, PageLocation.mk 6 91, PageLocation.mk 6 95,
  PageLocation.mk 6 102, PageLocation.mk 6 111, PageLocation.mk 6 119, PageLocation.mk 6 125, PageLocation.mk 6 132,
  PageLocation.mk 6 138, PageLocation.mk 6 143, PageLocation.mk 6 147, PageLocation.mk 6 152, PageLocation.mk 6 158,
  PageLocation.mk 7 1, PageLocation.mk 7 12, PageLocation.mk 7 23, PageLocation.mk 7 31, PageLocation.mk 7 38,
  PageLocation.mk 7 44, PageLocation.mk 7 52, PageLocation.mk 7 58, PageLocation.mk 7 68, PageLocation.mk 7 74,
  PageLocation.mk 7 82, PageLocation.mk 7 88, PageLocation.mk 7 96, PageLocation.mk 7 105, PageLocation.mk 7 121,
  PageLocation.mk 7 131, PageLocation.mk 7 138, PageLocation.mk 7 144, PageLocation.mk 7 150, PageLocation.mk 7 156,
  PageLocation.mk 7 160, PageLocation.mk 7 164, PageLocation.mk 7 171, PageLocation.mk 7 179, PageLocation.mk 7 188,
  PageLocation.mk 7 196, PageLocation.mk 8 1, PageLocation.mk 8 9, PageLocation.mk 8 17, PageLocation.mk 8 26,
  PageLocation.mk 8 34, PageLocation.mk 8 41, PageLocation.mk 8 46, PageLocation.mk 8 53, PageLocation.mk 8 62,
  PageLocation.mk 8 70, PageLocation.mk 9 1, PageLocation.mk 9 7, PageLocation.mk 9 14, PageLocation.mk 9 21,
  PageLocation.mk 9 27, PageLocation.mk 9 32, PageLocation.mk 9 37, PageLocation.mk 9 41, PageLocation.mk 9 48,
  PageLocation.mk 9 55, PageLocation.mk 9 62, PageLocation.mk 9 69, PageLocation.mk 9 73, PageLocation.mk 9 80,
  PageLocation.mk 9 87, PageLocation.mk 9 94, PageLocation.mk 9 100, PageLocation.mk 9 107, PageLocation.mk 9 112,
  PageLocation.mk 9 118, PageLocation.mk 9 123, PageLocation.mk 10 1, PageLocation.mk 10 7, PageLocation.mk 10 15,
  PageLocation.mk 10 21, PageLocation.mk 10 26, PageLocation.mk 10 34, PageLocation.mk 10 43, PageLocation.mk 10 54,
  PageLocation.mk 10 62, PageLocation.mk 10 71, PageLocation.mk 10 79, PageLocation.mk 10 89, PageLocation.mk 10 98,
  PageLocation.mk 10 107, PageLocation.mk 11 6, PageLocation.mk 11 13, PageLocation.mk 11 20, PageLocation.mk 11 29,
  PageLocation.mk 11 38, PageLocation.mk 11 46, PageLocation.mk 11 54, PageLocation.mk 11 63, PageLocation.mk 11 72,
  PageLocation.mk 11 82, PageLocation.mk 11 89, PageLocation.mk 11 98, PageLocation.mk 11 109, PageLocation.mk 11 118,
  PageLocation.mk 12 5, PageLocation.mk 12 15, PageLocation.mk 12 23, PageLocation.mk 12 31, PageLocation.mk 12 38,
  PageLocation.mk 12 44, PageLocation.mk 12 53, PageLocation.mk 12 64, PageLocation.mk 12 70, PageLocation.mk 12 79,
  PageLocation.mk 12 87, PageLocation.mk 12 96, PageLocation.mk 12 104, PageLocation.mk 13 1, PageLocation.mk 13 6,
  PageLocation.mk 13 14, PageLocation.mk 13 19, PageLocation.mk 13 29, PageLocation.mk 13 35, PageLocation.mk 13 43,
  PageLocation.mk 14 6, PageLocation.mk 14 11, PageLocation.mk 14 19, PageLocation.mk 14 25, PageLocation.mk 14 34,
  PageLocation.mk 14 43, PageLocation.mk 15 1, PageLocation.mk 15 16, PageLocation.mk 15 32, PageLocation.mk 15 52,
  PageLocation.mk 15 71, PageLocation.mk 15 91, PageLocation.mk 16 7, PageLocation.mk 16 15, PageLocation.mk 16 27,
  PageLocation.mk 16 35, PageLocation.mk 16 43, PageLocation.mk 16 55, PageLocation.mk 16 65, PageLocation.mk 16 73,
  PageLocation.mk 16 80, PageLocation.mk 16 88, PageLocation.mk 16 94, PageLocation.mk 16 103, PageLocation.mk 16 111,
  PageLocation.mk 16 119, PageLocation.mk 17 1, PageLocation.mk 17 8, PageLocation.mk 17 18, PageLocation.mk 17 28,
  PageLocation.mk 17 39, PageLocation.mk 17 50, PageLocation.mk 17 59, PageLocation.mk 17 67, PageLocation.mk 17 76,
  PageLocation.mk 17 87, PageLocation.mk 17 97, PageLocation.mk 17 105, PageLocation.mk 18 5, PageLocation.mk 18 16,
  PageLocation.mk 18 21, PageLocation.mk 18 28, PageLocation.mk 18 35, PageLocation.mk 18 46, PageLocation.mk 18 54,
  PageLocation.mk 18 62, PageLocation.mk 18 75, PageLocation.mk 18 84, PageLocation.mk 18 98, PageLocation.mk 19 1,
  PageLocation.mk 19 12, PageLocation.mk 19 26, PageLocation.mk 19 39, PageLocation.mk 19 52, PageLocation.mk 19 65,
  PageLocation.mk 19 77, PageLocation.mk 19 96, PageLocation.mk 20 13, PageLocation.mk 20 38, PageLocation.mk 20 52,
  PageLocation.mk 20 65, PageLocation.mk 20 77, PageLocation.mk 20 88, PageLocation.mk 20 99, PageLocation.mk 20 114,
  PageLocation.mk 20 126, PageLocation.mk 21 1, PageLocation.mk 21 11, PageLocation.mk 21 25, PageLocation.mk 21 36,
  PageLocation.mk 21 45, PageLocation.mk 21 58, PageLocation.mk 21 73, PageLocation.mk 21 82, PageLocation.mk 21 91,
  PageLocation.mk 21 102, PageLocation.mk 22 1, PageLocation.mk 22 6, PageLocation.mk 22 16, PageLocation.mk 22 24,
  PageLocation.mk 22 31, PageLocation.mk 22 39, PageLocation.mk 22 47, PageLocation.mk 22 56, PageLocation.mk 22 65,
  PageLocation.mk 22 73, PageLocation.mk 23 1, PageLocation.mk 23 18, PageLocation.mk 23 28, PageLocation.mk 23 43,
  PageLocation.mk 23 60, PageLocation.mk 23 75, PageLocation.mk 23 90, PageLocation.mk 23 105, PageLocation.mk 24 1,
  PageLocation.mk 24 11, PageLocation.mk 24 21, PageLocation.mk 24 28, PageLocation.mk 24 32, PageLocation.mk 24 37,
  PageLocation.mk 24 44, PageLocation.mk 24 54, PageLocation.mk 24 59, PageLocation.mk 24 62, PageLocation.mk 25 3,
  PageLocation.mk 25 12, PageLocation.mk 25 21, PageLocation.mk 25 33, PageLocation.mk 25 44, PageLocation.mk 25 56,
  PageLocation.mk 25 68, PageLocation.mk 26 1, PageLocation.mk 26 20, PageLocation.mk 26 40, PageLocation.mk 26 61,
  PageLocation.mk 26 84, PageLocation.mk 26 112, PageLocation.mk 26 137, PageLocation.mk 26 160, PageLocation.mk 26 184,
  PageLocation.mk 26 207, PageLocation.mk 27 1, PageLocation.mk 27 14, PageLocation.mk 27 23, PageLocation.mk 27 36,
  PageLocation.mk 27 45, PageLocation.mk 27 56, PageLocation.mk 27 64, PageLocation.mk 27 77, PageLocation.mk 27 89,
  PageLocation.mk 28 6, PageLocation.mk 28 14, PageLocation.mk 28 22, PageLocation.mk 28 29, PageLocation.mk 28 36,
  PageLocation.mk 28 44, PageLocation.mk 28 51, PageLocation.mk 28 60, PageLocation.mk 28 71, PageLocation.mk 28 78,
  PageLocation.mk 28 85, PageLocation.mk 29 7, PageLocation.mk 29 15, PageLocation.mk 29 24, PageLocation.mk 29 31,
  PageLocation.mk 29 39, PageLocation.mk 29 46, PageLocation.mk 29 53, PageLocation.mk 29 64, PageLocation.mk 30 6,
  PageLocation.mk 30 16, PageLocation.mk 30 25, PageLocation.mk 30 33, PageLocation.mk 30 42, PageLocation.mk 30 51,
  PageLocation.mk 31 1, PageLocation.mk 31 12, PageLocation.mk 31 20, PageLocation.mk 31 29, PageLocation.mk 32 1,
  PageLocation.mk 32 12, PageLocation.mk 32 21, PageLocation.mk 33 1, PageLocation.mk 33 7, PageLocation.mk 33 16,
  PageLocation.mk 33 23, PageLocation.mk 33 31, PageLocation.mk 33 36, PageLocation.mk 33 44, PageLocation.mk 33 51,
  PageLocation.mk 33 55, PageLocation.mk 33 63, PageLocation.mk 34 1, PageLocation.mk 34 8, PageLocation.mk 34 15,
  PageLocation.mk 34 23, PageLocation.mk 34 32, PageLocation.mk 34 40, PageLocation.mk 34 49, PageLocation.mk 35 4,
  PageLocation.mk 35 12, PageLocation.mk 35 19, PageLocation.mk 35 31, PageLocation.mk 35 39, PageLocation.mk 35 45,
  PageLocation.mk 36 13, PageLocation.mk 36 28, PageLocation.mk 36 41, PageLocation.mk 36 55, PageLocation.mk 36 71,
  PageLocation.mk 37 1, PageLocation.mk 37 25, PageLocation.mk 37 52, PageLocation.mk 37 77, PageLocation.mk 37 103,
  PageLocation.mk 37 127, PageLocation.mk 37 154, PageLocation.mk 38 1, PageLocation.mk 38 17, PageLocation.mk 38 27,
  PageLocation.mk 38 43, PageLocation.mk 38 62, PageLocation.mk 38 84, PageLocation.mk 39 6, PageLocation.mk 39 11,
  PageLocation.mk 39 22, PageLocation.mk 39 32, PageLocation.mk 39 41, PageLocation.mk 39 48, PageLocation.mk 39 57,
  PageLocation.mk 39 68, PageLocation.mk 39 75, PageLocation.mk 40 8, PageLocation.mk 40 17, PageLocation.mk 40 26,
  PageLocation.mk 40 34, PageLocation.mk 40 41, PageLocation.mk 40 50, PageLocation.mk 40 59, PageLocation.mk 40 67,
  PageLocation.mk 40 78, PageLocation.mk 41 1, PageLocation.mk 41 12, PageLocation.mk 41 21, PageLocation.mk 41 30,
  PageLocation.mk 41 39, PageLocation.mk 41 47, PageLocation.mk 42 1, PageLocation.mk 42 11, PageLocation.mk 42 16,
  PageLocation.mk 42 23, PageLocation.mk 42 32, PageLocation.mk 42 45, PageLocation.mk 42 52, PageLocation.mk 43 11,
  PageLocation.mk 43 23, PageLocation.mk 43 34, PageLocation.mk 43 48, PageLocation.mk 43 61, PageLocation.mk 43 74,
  PageLocation.mk 44 1, PageLocation.mk 44 19, PageLocation.mk 44 40, PageLocation.mk 45 1, PageLocation.mk 45 14,
  PageLocation.mk 45 23, PageLocation.mk 45 33, PageLocation.mk 46 6, PageLocation.mk 46 15, PageLocation.mk 46 21,
  PageLocation.mk 46 29, PageLocation.mk 47 1, PageLocation.mk 47 12, PageLocation.mk 47 20, PageLocation.mk 47 30,
  PageLocation.mk 48 1, PageLocation.mk 48 10, PageLocation.mk 48 16, PageLocation.mk 48 24, PageLocation.mk 48 29,
  PageLocation.mk 49 5, PageLocation.mk 49 12, PageLocation.mk 50 1, PageLocation.mk 50 16, PageLocation.mk 50 36,
  PageLocation.mk 51 7, PageLocation.mk 51 31, PageLocation.mk 51 52, PageLocation.mk 52 15, PageLocation.mk 52 32,
  PageLocation.mk 53 1, PageLocation.mk 53 27, PageLocation.mk 53 45, PageLocation.mk 54 7, PageLocation.mk 54 28,
  PageLocation.mk 54 50, PageLocation.mk 55 17, PageLocation.mk 55 41, PageLocation.mk 55 68, PageLocation.mk 56 17,
  PageLocation.mk 56 51, PageLocation.mk 56 77, PageLocation.mk 57 4, PageLocation.mk 57 12, PageLocation.mk 57 19,
  PageLocation.mk 57 25, PageLocation.mk 58 1, PageLocation.mk 58 7, PageLocation.mk 58 12, PageLocation.mk 58 22,
  PageLocation.mk 59 4, PageLocation.mk 59 10, PageLocation.mk 59 17, PageLocation.mk 60 1, PageLocation.mk 60 6,
  PageLocation.mk 60 12, PageLocation.mk 61 6, PageLocation.mk 62 1, PageLocation.mk 62 9, PageLocation.mk 63 5,
  PageLocation.mk 64 1, PageLocation.mk 64 10, PageLocation.mk 65 1, PageLocation.mk 65 6, PageLocation.mk 66 1,
  PageLocation.mk 66 8, PageLocation.mk 67 1, PageLocation.mk 67 13, PageLocation.mk 67 27, PageLocation.mk 68 16,
  PageLocation.mk 68 43, PageLocation.mk 69 9, PageLocation.mk 69 35, PageLocation.mk 70 11, PageLocation.mk 70 40,
  PageLocation.mk 71 11, PageLocation.mk 72 1, PageLocation.mk 72 14, PageLocation.mk 73 1, PageLocation.mk 73 20,
  PageLocation.mk 74 18, PageLocation.mk 74 48, PageLocation.mk 75 20, PageLocation.mk 76 6, PageLocation.mk 76 26,
  PageLocation.mk 77 20, PageLocation.mk 78 1, PageLocation.mk 78 31, PageLocation.mk 79 16, PageLocation.mk 80 1,
  PageLocation.mk 81 1, PageLocation.mk 82 1, PageLocation.mk 83 7, PageLocation.mk 83 35, PageLocation.mk 85 1,
  PageLocation.mk 86 1, PageLocation.mk 87 16, PageLocation.mk 89 1, PageLocation.mk 89 24, PageLocation.mk 91 1,
  PageLocation.mk 92 15, PageLocation.mk 95 1, PageLocation.mk 97 1, PageLocation.mk 98 8, PageLocation.mk 100 10,
  PageLocation.mk 103 1, PageLocation.mk 106 1, PageLocation.mk 109 1, PageLocation.mk 112 1]

/-- Array access `SURAH_DATA[surahNumber]` for an in-range surah number. -/
def surahDataAt (surahNumber : ℤ) : SurahData :=
  SURAH_DATA.getD surahNumber.toNat ⟨0, 0, 0⟩

/-- The inner backward loop of `quran_renderer_get_surah_start_page`
(lines 909-917): `prev` holds the page locations at indices `j, j-1, ..., 0`
in that order; `none` models the loop running past index 0 without
returning. -/
def surahStartInner (surahNumber : ℤ) : ℤ → List PageLocation → Option ℤ
  | _, [] => none
  | j, loc :: rest =>
    if loc.surahNumber = surahNumber then some j
    else if loc.surahNumber < surahNumber then some (j + 1)
    else surahStartInner surahNumber (j - 1) rest

/-- The outer forward loop of `quran_renderer_get_surah_start_page`
(lines 902-918): `i` is the index of the head of the remaining list and
`prev` the already-visited prefix in reverse order.  When the inner backward
scan exhausts without returning, control falls back to the outer loop, which
advances. -/
def surahStartGo (surahNumber : ℤ) : ℤ → List PageLocation → List PageLocation → ℤ
  | _, _, [] => -1
  | i, prev, loc :: rest =>
    if loc.surahNumber = surahNumber ∧ loc.ayahNumber = 1 then i
    else
      match (if loc.surahNumber > surahNumber then surahStartInner surahNumber (i - 1) prev else none) with
      | some r => r
      | none => surahStartGo surahNumber (i + 1) (loc :: prev) rest

/-- `quran_renderer_get_surah_start_page` (lines 896-922). -/
def quran_renderer_get_surah_start_page (surahNumber : ℤ) : ℤ :=
  if surahNumber < 1 ∨ surahNumber > 114 then -1
  else surahStartGo surahNumber 0 [] PAGE_LOCATIONS

/-- The backward loop of `quran_renderer_get_ayah_page` (lines 936-944): the
list is `PAGE_LOCATIONS` in reverse order, `j` the index of its head
(starting from 603); exhaustion models the final `return 0`. -/
def ayahPageGo (surahNumber ayahNumber : ℤ) : ℤ → List PageLocation → ℤ
  | _, [] => 0
  | j, loc :: rest =>
    if loc.surahNumber < surahNumber then j + 1
    else if loc.surahNumber = surahNumber ∧ loc.ayahNumber ≤ ayahNumber then j
    else ayahPageGo surahNumber ayahNumber (j - 1) rest

/-- `quran_renderer_get_ayah_page` (lines 924-947). -/
def quran_renderer_get_ayah_page (surahNumber ayahNumber : ℤ) : ℤ :=
  if surahNumber < 1 ∨ surahNumber > 114 then -1
  else if ayahNumber < 1 ∨ ayahNumber > (surahDataAt surahNumber).ayahCount then -1
  else ayahPageGo surahNumber ayahNumber 603 PAGE_LOCATIONS.reverse

/-- `quran_renderer_get_surah_info` (lines 877-894): `none` models the
`false` return for an out-of-range surah number. -/
def quran_renderer_get_surah_info (surahNumber : ℤ) : Option SurahData :=
  if surahNumber < 1 ∨ surahNumber > 114 then none
  else some (surahDataAt surahNumber)

/-- `quran_renderer_get_page_location` (lines 949-960): `none` models the
`false` return for an out-of-range page index. -/
def quran_renderer_get_page_location (pageIndex : ℤ) : Option (PageLocation × ℤ) :=
  if pageIndex < 0 ∨ pageIndex ≥ 604 then none
  else some (PAGE_LOCATIONS.getD pageIndex.toNat ⟨0, 0⟩, pageIndex)

/-- `quran_renderer_get_ayah_count` (lines 962-968). -/
def quran_renderer_get_ayah_count (surahNumber : ℤ) : ℤ :=
  if surahNumber < 1 ∨ surahNumber > 114 then -1
  else (surahDataAt surahNumber).ayahCount

/-! ## Fatiha fan geometry of `parseQuranText` (lines 508-523) -/

/-- The width ratio stored in `lineWidths[15 * pageIndex + lineIndex]` for a
line with `lineIndex > 0` on pages 0-1 (lines 512-519):
`ratio = 0.9`, `diameter = pageWidth * ratio` with `pageWidth = 17000`,
`degree = (30 + (lineIndex - 1) * (180 - (30 + 22.5)) / 6) * π / 180`, and
the stored value is `diameter * sin(degree) / pageWidth`. -/
noncomputable def fatihaLineWidthRatio (lineIndex : ℕ) : ℝ :=
  let pageWidth : ℝ := 17000
  let ratio : ℝ := 0.9
  let diameter : ℝ := pageWidth * ratio
  let startangle : ℝ := 30
  let endangle : ℝ := 22.5
  let degree : ℝ := (startangle + ((lineIndex : ℝ) - 1) * (180 - (startangle + endangle)) / 6) * Real.pi / 180
  (diameter * Real.sin degree) / pageWidth

/-- The special-case reclassification of `parseQuranText` for pages 0 and 1
(lines 509-523): every line after the first is forced to `Line`/`just`, and
the first line is forced to `center`; other pages are untouched. -/
def fatihaAdjust (pageIndex lineIndex : ℕ) (line : QuranLine) : QuranLine :=
  if pageIndex = 0 ∨ pageIndex = 1 then
    if lineIndex > 0 then { line with just_type := .just, line_type := .line }
    else { line with just_type := .center }
  else line

/-! ## The `quran_renderer_draw_page` entry point (lines 834-863)

The Skia rasterization itself is out of scope (spec section 6); it is
modelled by an abstract `render` function of the immutable engine core, the
call arguments, and the previous pixel contents.  The old pixels reach the
output: `drawPage` begins with `canvas->drawColor(background)` (line 676),
and Skia's `drawColor` composites with its default `kSrcOver` blend mode
over the canvas (line 668 selects `kPremul_SkAlphaType`), so a background
color with alpha below 255 blends with — rather than overwrites — whatever
the buffer held before the call. -/

/-- `QuranRenderConfig` (`renderer.h` lines 48-57). -/
structure QuranRenderConfig where
  tajweed : Bool
  justify : Bool
  fontScale : ℚ
  backgroundColor : ℕ
  fontSize : ℤ
  useForeground : Bool
  lineHeightDivisor : ℚ
  topMarginLines : ℚ
deriving DecidableEq, Repr

/-- The per-field defaults applied by `quran_renderer_draw_page` when
`config` is null (lines 843-856). -/
def defaultRenderConfig : QuranRenderConfig :=
  { tajweed := true, justify := true, fontScale := 1,
    backgroundColor := 0xFFFFFFFF, fontSize := 0, useForeground := false,
    lineHeightDivisor := 0, topMarginLines := -1 }

/-- Resolution of the nullable `config` pointer (lines 843-856). -/
def resolveConfig : Option QuranRenderConfig → QuranRenderConfig
  | some c => c
  | none => defaultRenderConfig

/-- `QuranPixelBuffer` (`renderer.h` lines 28-35); the pixel pointer is
`none` when null, otherwise carries the buffer contents. -/
structure QuranPixelBuffer (Pix : Type) where
  pixels : Option Pix
  width : ℤ
  height : ℤ
  stride : ℤ
  format : ℕ

/-- The fields of `QuranRendererImpl` that are immutable after
`initialize`. -/
structure EngineCore where
  upem : ℕ
  tajweedcolorindex : ℕ

/-- A `QuranRendererImpl` as the C API sees it: the immutable core plus the
`tajweed` flag mutated by `setTajweed` (line 807). -/
structure QuranRendererState where
  core : EngineCore
  tajweed : Bool

/-- `quran_renderer_draw_page` (lines 834-859): null/guard checks, then
`setTajweed(config.tajweed)`, then `drawPage`, whose output replaces the
pixel contents.  `render` abstracts `drawPage`'s rasterization as a function
of the immutable core, the call arguments, and the buffer's previous pixel
contents (which the opening `canvas->drawColor` SrcOver-blends with). -/
def quran_renderer_draw_page {Pix : Type}
    (render : EngineCore → ℤ → ℤ → ℤ → ℕ → ℤ → QuranRenderConfig → Pix → Pix)
    (renderer : Option QuranRendererState) (buffer : QuranPixelBuffer Pix)
    (pageIndex : ℤ) (config : Option QuranRenderConfig) :
    Option QuranRendererState × QuranPixelBuffer Pix :=
  match renderer with
  | none => (none, buffer)
  | some st =>
    match buffer.pixels with
    | none => (some st, buffer)
    | some oldPixels =>
      if pageIndex < 0 ∨ 604 ≤ pageIndex then (some st, buffer)
      else
        let cfg := resolveConfig config
        let st' : QuranRendererState := { st with tajweed := cfg.tajweed }
        (some st',
         { buffer with
            pixels := some (render st'.core buffer.width buffer.height
              buffer.stride buffer.format pageIndex cfg oldPixels) })

/-- One (premultiplied) color channel of the background clear that opens
`drawPage`: `canvas->drawColor(SkColorSetARGB(bg_a, bg_r, bg_g, bg_b))`
(line 676) composited with Skia's default `kSrcOver` blend mode onto the
`kPremul_SkAlphaType` canvas (line 668): source channel value `c` with
source alpha `a` over destination channel value `dst`, all in `[0, 255]`,
gives `(a·c + (255 − a)·dst)/255`.  For an opaque background (`a = 255`)
this is `c`, independent of `dst`; for `a < 255` it depends on `dst`. -/
def blendSrcOver (a c dst : ℚ) : ℚ := (a * c + (255 - a) * dst) / 255

/-- A rasterization oracle observing one background pixel that no later
frame or glyph paint covers (such a pixel exists on every page: the margins
are left untouched after the clear): its red channel after the call is
exactly the SrcOver clear of `drawPage` line 676, with alpha taken from the
low byte and red from the high byte of the `0xRRGGBBAA` background word
(lines 672-675). -/
def clearOnlyRender : EngineCore → ℤ → ℤ → ℤ → ℕ → ℤ → QuranRenderConfig → ℚ → ℚ :=
  fun _ _ _ _ _ _ cfg dst =>
    blendSrcOver ((cfg.backgroundColor &&& 0xFF : ℕ) : ℚ)
      (((cfg.backgroundColor >>> 24) &&& 0xFF : ℕ) : ℚ) dst

/-- `quran_renderer_get_page_count` (lines 861-863):
`return renderer ? 604 : 0`. -/
def quran_renderer_get_page_count (renderer : Option QuranRendererState) : ℤ :=
  if renderer.isSome then 604 else 0



/-! ## Helper lemmas -/

/-- Evaluation rule for `truncQ` on non-negative values. -/
theorem truncQ_eq_of_nonneg {q : ℚ} {n : ℤ} (h0 : 0 ≤ q) (h1 : (n : ℚ) ≤ q)
    (h2 : q < n + 1) : truncQ q = n := by
  rw [truncQ, if_pos h0, Int.floor_eq_iff]
  exact ⟨h1, by exact_mod_cast h2⟩

/-- `truncQ` is the identity on integers. -/
theorem truncQ_intCast (n : ℤ) : truncQ ((n : ℚ)) = n := by
  rw [truncQ]
  rcases le_or_lt 0 ((n : ℚ)) with h | h
  · rw [if_pos h, Int.floor_intCast]
  · rw [if_neg (not_le.mpr h), Int.ceil_intCast]

/-! ## Claim theorems -/

/-- **C1.** The claim states that `draw_page` (without an explicit pitch
override) uses the measured per-page pitch of `calculateOptimalLineHeight`
(page maximum ascent+descent, to pixels, +2%, clamped by `H/15`).  The code
does not: `drawPage` sets `inter_line = height / 15` unconditionally
(line 702), never calls `calculateOptimalLineHeight`, and never reads the
`lineHeightDivisor` override.  Concretely, on a 1700×1500 canvas with
`upem = 1000` and a measured page maximum of 100 font units, the claimed
pitch is 9 while the rendered pitch is 100 for every override value. -/
theorem c1_pitch_ignores_measurement :
    (∀ lineHeightDivisor : ℚ, drawPageInterLine 1500 lineHeightDivisor = 100)
    ∧ calculateOptimalLineHeight [100] 1700 1500 1 1000 = 9
    ∧ drawPageInterLine 1500 0 ≠ 9 := by
  refine ⟨fun _ => rfl, ?_, by decide⟩
  have hc : clampScale 1 = 1 := by rw [clampScale]; norm_num
  have e1 : truncQ (90 : ℚ) = 90 :=
    truncQ_eq_of_nonneg (by norm_num) (by norm_num) (by norm_num)
  have e2 : truncQ (9 : ℚ) = 9 :=
    truncQ_eq_of_nonneg (by norm_num) (by norm_num) (by norm_num)
  have e3 : truncQ ((459 : ℚ) / 50) = 9 :=
    truncQ_eq_of_nonneg (by norm_num) (by norm_num) (by norm_num)
  simp only [calculateOptimalLineHeight, hc, List.foldl_cons, List.foldl_nil]
  norm_num [e1]
  norm_num [e2]
  norm_num [e3]

/-- **C4 counterexample.** The claim computes the default font size as
`round((W/17)·0.9·s)`; the code truncates, in two stages.  At `W = 110`,
`s = 1`, no explicit size: `(110/17)·0.9 = 5.82…`, so the claim's value is
6 but the code computes 5. -/
theorem c4_round_counterexample :
    drawPageCharHeight 110 1 0 = 5
    ∧ round ((110 : ℚ) / 17 * (9/10) * clampScale 1) = 6
    ∧ (5 : ℤ) ≠ 6 := by
  have hc : clampScale 1 = 1 := by rw [clampScale]; norm_num
  refine ⟨?_, ?_, by decide⟩
  · have h1 : truncQ ((99 : ℚ) / 17) = 5 :=
      truncQ_eq_of_nonneg (by norm_num) (by norm_num) (by norm_num)
    have h2 : truncQ ((5 : ℚ)) = 5 :=
      truncQ_eq_of_nonneg (by norm_num) (by norm_num) (by norm_num)
    simp only [drawPageCharHeight, hc]
    norm_num [h1, h2]
  · rw [hc, round_eq, Int.floor_eq_iff]
    norm_num

/-- **C4 amended.** The effective font size of `drawPage` is the two-stage
truncation `trunc(trunc((W/17)·0.9) · s)` with `s` the font scale clamped to
`[0.5, 2]` (truncation toward zero, not rounding); an explicit positive
`fontSize` is used verbatim, and then the scale has no effect at all. -/
theorem c4_font_size_amended (width : ℕ) (fontScale : ℚ) (fontSize : ℤ) :
    (0 < fontSize → drawPageCharHeight width fontScale fontSize = fontSize
        ∧ ∀ s : ℚ, drawPageCharHeight width s fontSize = fontSize)
    ∧ (fontSize ≤ 0 → drawPageCharHeight width fontScale fontSize
        = truncQ ((truncQ ((width : ℚ) / 17 * (9/10)) : ℚ) * clampScale fontScale))
    ∧ (1/2 : ℚ) ≤ clampScale fontScale
    ∧ clampScale fontScale ≤ 2
    ∧ (1/2 ≤ fontScale → fontScale ≤ 2 → clampScale fontScale = fontScale) := by
  refine ⟨fun h => ⟨?_, fun s => ?_⟩, fun h => ?_, le_max_left _ _, ?_, fun h1 h2 => ?_⟩
  · simp [drawPageCharHeight, h]
  · simp [drawPageCharHeight, h]
  · simp [drawPageCharHeight, not_lt.mpr h, lt_irrefl]
  · exact max_le (by norm_num) (min_le_left _ _)
  · rw [clampScale, min_eq_right h2, max_eq_right h1]

/-- **C4 witness.** The amended statement at `W = 110`, `s = 1`:
the explicit-size branch returns 40 verbatim, and the clamp is the
identity on `s = 1`. -/
theorem c4_font_size_witness :
    drawPageCharHeight 110 1 40 = 40 ∧ clampScale 1 = 1 := by
  have h := c4_font_size_amended 110 1 40
  exact ⟨(h.1 (by norm_num)).1, h.2.2.2.2 (by norm_num) (by norm_num)⟩

/-- **C8.** The default text color of a `draw_page` call is derived from the
background's relative luminance `(0.299R + 0.587G + 0.114B)/255`: white
exactly when the luminance is below 1/2, black otherwise; in particular
background `0x1E1E1EFF` resolves to white and `0xFFFFFFFF` to black. -/
theorem c8_default_text_color :
    (∀ bg : ℕ, getTextColorForBackground bg =
      if calculateLuminance ((bg >>> 24) &&& 0xFF) ((bg >>> 16) &&& 0xFF)
          ((bg >>> 8) &&& 0xFF) < 1/2
      then whiteColor else blackColor)
    ∧ getTextColorForBackground 0x1E1E1EFF = whiteColor
    ∧ getTextColorForBackground 0xFFFFFFFF = blackColor := by
  have hgen : ∀ bg : ℕ, getTextColorForBackground bg =
      if calculateLuminance ((bg >>> 24) &&& 0xFF) ((bg >>> 16) &&& 0xFF)
          ((bg >>> 8) &&& 0xFF) < 1/2
      then whiteColor else blackColor := by
    intro bg
    rw [getTextColorForBackground, isDarkBackground]
    by_cases h : calculateLuminance ((bg >>> 24) &&& 0xFF) ((bg >>> 16) &&& 0xFF)
        ((bg >>> 8) &&& 0xFF) < 1/2
    · simp [h]
    · simp [h]
  refine ⟨hgen, ?_, ?_⟩
  · have h1 : ((0x1E1E1EFF : ℕ) >>> 24) &&& 0xFF = 30 := by decide
    have h2 : ((0x1E1E1EFF : ℕ) >>> 16) &&& 0xFF = 30 := by decide
    have h3 : ((0x1E1E1EFF : ℕ) >>> 8) &&& 0xFF = 30 := by decide
    rw [getTextColorForBackground, isDarkBackground]
    simp only [h1, h2, h3]
    rw [if_pos]
    rw [decide_eq_true_eq]
    norm_num [calculateLuminance]
  · have h1 : ((0xFFFFFFFF : ℕ) >>> 24) &&& 0xFF = 255 := by decide
    have h2 : ((0xFFFFFFFF : ℕ) >>> 16) &&& 0xFF = 255 := by decide
    have h3 : ((0xFFFFFFFF : ℕ) >>> 8) &&& 0xFF = 255 := by decide
    rw [getTextColorForBackground, isDarkBackground]
    simp only [h1, h2, h3]
    rw [if_neg]
    rw [decide_eq_true_eq]
    norm_num [calculateLuminance]

/-- **C10.** `quran_renderer_get_page_count` returns 604 for every non-null
handle, 0 for the null handle, and never any other value. -/
theorem c10_page_count :
    (∀ st : QuranRendererState, quran_renderer_get_page_count (some st) = 604)
    ∧ quran_renderer_get_page_count none = 0
    ∧ ∀ renderer : Option QuranRendererState,
        quran_renderer_get_page_count renderer = 604
        ∨ quran_renderer_get_page_count renderer = 0 := by
  refine ⟨fun _ => rfl, rfl, fun renderer => ?_⟩
  cases renderer
  · exact Or.inr rfl
  · exact Or.inl rfl

/-- **C2 counterexample.** The claim gates the padding on the *text-only*
shortfall `Lt − Tw` exceeding 1% of `Lt`; the code gates it on the *total*
shortfall `Lt − Aw` (`gap = lineWidth - currentLineWidth`, line 586).  For
the shaped line `[filler advance 95, text glyph advance 900]` at target 1000:
`Tw = 900`, so the claim's conditions hold (`Lt − Tw = 100 > 10 = 1%·Lt`,
one filler) and the claim predicts filler advance `(Lt − Tw)/n = 100`, but
`Aw = 995` gives `gap = 5 ≤ 10`, so the code applies no padding and the
filler keeps its natural advance 95. -/
theorem c2_one_percent_gate_counterexample :
    textWidthOf [ShapedGlyph.mk 3 95, ShapedGlyph.mk 7 900] = 900
    ∧ currentLineWidthOf [ShapedGlyph.mk 3 95, ShapedGlyph.mk 7 900] = 995
    ∧ nbSpacesOf [ShapedGlyph.mk 3 95, ShapedGlyph.mk 7 900] = 1
    ∧ ((900 : ℚ) < 1000 ∧ (1000 : ℚ) - 900 > 1000 * (1/100))
    ∧ (decideJustification [ShapedGlyph.mk 3 95, ShapedGlyph.mk 7 900] 1000).applySpaceWidth
        = false
    ∧ glyphDrawAdvance (decideJustification [ShapedGlyph.mk 3 95, ShapedGlyph.mk 7 900] 1000)
        JustType.just (ShapedGlyph.mk 3 95) = 95
    ∧ ((95 : ℚ) ≠ (1000 - 900) / 1) := by
  have hT : textWidthOf [ShapedGlyph.mk 3 95, ShapedGlyph.mk 7 900] = 900 := by
    simp [textWidthOf, spaceCodePoint]
  have hA : currentLineWidthOf [ShapedGlyph.mk 3 95, ShapedGlyph.mk 7 900] = 995 := by
    simp [currentLineWidthOf]
  have hN : nbSpacesOf [ShapedGlyph.mk 3 95, ShapedGlyph.mk 7 900] = 1 := by
    simp [nbSpacesOf, spaceCodePoint]
  have hd : decideJustification [ShapedGlyph.mk 3 95, ShapedGlyph.mk 7 900] 1000 =
      { shrinkRatio := none, applySpaceWidth := false, spaceWidth := 0 } := by
    rw [decideJustification, hT, hA, hN]
    rw [if_neg (by norm_num), if_pos (by norm_num), if_neg (by norm_num)]
  refine ⟨hT, hA, hN, ⟨by norm_num, by norm_num⟩, by rw [hd], ?_, by norm_num⟩
  rw [glyphDrawAdvance, hd]
  rw [if_neg (fun hc => Bool.false_ne_true hc.2.2)]
  norm_num

/-- **C2 amended.** The width-fitting decision of `drawLine`, with the 1%
gate taken on the total-advance shortfall `Lt − Aw` as the code computes it:
(1) if the total advance `Aw` exceeds the target `Lt`, the transform is
scaled by exactly `Lt / Aw`, no padding is applied, and every glyph keeps
its natural advance; (2) if `Aw ≤ Lt`, the text-only width `Tw` falls short
of `Lt`, the shortfall `Lt − Aw` exceeds 1% of `Lt`, and there is at least
one filler glyph, then every filler glyph's advance is replaced by
`(Lt − Tw)/n`; (3) whenever `Lt − Aw` is at most 1% of `Lt`, no padding is
applied.  (The caller's justify flag only selects the shaping-time
`hb_buffer_set_justify` width, line 547; it does not enter this decision.) -/
theorem c2_width_fitting_amended (glyphs : List ShapedGlyph) (lineWidth : ℚ) :
    ((currentLineWidthOf glyphs : ℚ) > lineWidth →
      (decideJustification glyphs lineWidth).shrinkRatio
          = some (lineWidth / (currentLineWidthOf glyphs : ℚ))
      ∧ (decideJustification glyphs lineWidth).applySpaceWidth = false
      ∧ ∀ g ∈ glyphs, glyphDrawAdvance (decideJustification glyphs lineWidth)
          JustType.just g = (g.x_advance : ℚ))
    ∧ ((currentLineWidthOf glyphs : ℚ) ≤ lineWidth →
       (textWidthOf glyphs : ℚ) < lineWidth →
       lineWidth - (currentLineWidthOf glyphs : ℚ) > lineWidth * (1/100) →
       0 < nbSpacesOf glyphs →
        (decideJustification glyphs lineWidth).applySpaceWidth = true
        ∧ (decideJustification glyphs lineWidth).spaceWidth
            = (lineWidth - (textWidthOf glyphs : ℚ)) / (nbSpacesOf glyphs : ℚ)
        ∧ ∀ g : ShapedGlyph, g.codepoint = spaceCodePoint →
            glyphDrawAdvance (decideJustification glyphs lineWidth) JustType.just g
              = (lineWidth - (textWidthOf glyphs : ℚ)) / (nbSpacesOf glyphs : ℚ))
    ∧ (lineWidth - (currentLineWidthOf glyphs : ℚ) ≤ lineWidth * (1/100) →
        (decideJustification glyphs lineWidth).applySpaceWidth = false) := by
  refine ⟨fun h => ?_, fun h1 h2 h3 h4 => ?_, fun h => ?_⟩
  · have hd : decideJustification glyphs lineWidth =
        { shrinkRatio := some (lineWidth / (currentLineWidthOf glyphs : ℚ)),
          applySpaceWidth := false, spaceWidth := 0 } := by
      rw [decideJustification, if_pos h]
    refine ⟨by rw [hd], by rw [hd], fun g _ => ?_⟩
    rw [glyphDrawAdvance, hd, if_neg]
    rintro ⟨-, -, hfalse⟩
    exact Bool.false_ne_true hfalse
  · have hd : decideJustification glyphs lineWidth =
        { shrinkRatio := none, applySpaceWidth := true,
          spaceWidth := (lineWidth - (textWidthOf glyphs : ℚ)) / (nbSpacesOf glyphs : ℚ) } := by
      rw [decideJustification, if_neg (not_lt.mpr h1), if_pos h2, if_pos ⟨h3, h4⟩]
    refine ⟨by rw [hd], by rw [hd], fun g hg => ?_⟩
    rw [glyphDrawAdvance, if_pos ⟨hg, rfl, by rw [hd]⟩, hd]
  · by_cases h1 : (currentLineWidthOf glyphs : ℚ) > lineWidth
    · rw [decideJustification, if_pos h1]
    · by_cases h2 : (textWidthOf glyphs : ℚ) < lineWidth
      · rw [decideJustification, if_neg h1, if_pos h2, if_neg]
        rintro ⟨hg, -⟩
        exact absurd hg (not_lt.mpr h)
      · rw [decideJustification, if_neg h1, if_neg h2]

/-- **C2 witness.** The amended padding branch at a concrete input:
glyphs `[filler advance 50, text glyph advance 800]`, target 1000, so
`Aw = 850 ≤ 1000`, `Tw = 800 < 1000`, `Lt − Aw = 150 > 10 = 1%·Lt`, `n = 1`:
padding applies with per-filler advance `(1000 − 800)/1 = 200`. -/
theorem c2_width_fitting_amended_witness :
    (decideJustification [ShapedGlyph.mk 3 50, ShapedGlyph.mk 7 800] 1000).applySpaceWidth
      = true
    ∧ (decideJustification [ShapedGlyph.mk 3 50, ShapedGlyph.mk 7 800] 1000).spaceWidth
      = 200 := by
  have hT : textWidthOf [ShapedGlyph.mk 3 50, ShapedGlyph.mk 7 800] = 800 := by
    simp [textWidthOf, spaceCodePoint]
  have hA : currentLineWidthOf [ShapedGlyph.mk 3 50, ShapedGlyph.mk 7 800] = 850 := by
    simp [currentLineWidthOf]
  have hN : nbSpacesOf [ShapedGlyph.mk 3 50, ShapedGlyph.mk 7 800] = 1 := by
    simp [nbSpacesOf, spaceCodePoint]
  have h := (c2_width_fitting_amended [ShapedGlyph.mk 3 50, ShapedGlyph.mk 7 800] 1000).2.1
    (by rw [hA]; norm_num) (by rw [hT]; norm_num) (by rw [hA]; norm_num)
    (by rw [hN]; norm_num)
  refine ⟨h.1, ?_⟩
  rw [h.2.1, hT, hN]
  norm_num

/-- **C3.** On pages 0 and 1 every line with index above 0 is reclassified
`Body`/`Justify`, the first line stays centered, and the stored special
width ratio is `(0.9 · pageWidth · sin θᵢ)/pageWidth` with
`θᵢ = (30 + (i − 1)·(180 − (30 + 22.5))/6)` degrees for the `i`-th line. -/
theorem c3_fatiha_fan_geometry (pageIndex lineIndex : ℕ) (line : QuranLine)
    (hp : pageIndex = 0 ∨ pageIndex = 1) (hl : 1 ≤ lineIndex) :
    (fatihaAdjust pageIndex lineIndex line).line_type = LineType.line
    ∧ (fatihaAdjust pageIndex lineIndex line).just_type = JustType.just
    ∧ (fatihaAdjust pageIndex 0 line).just_type = JustType.center
    ∧ fatihaLineWidthRatio lineIndex
      = (0.9 * 17000 * Real.sin ((30 + ((lineIndex : ℝ) - 1) * (180 - (30 + 22.5)) / 6)
          * Real.pi / 180)) / 17000 := by
  refine ⟨?_, ?_, ?_, ?_⟩
  · rw [fatihaAdjust, if_pos hp, if_pos (by omega : 0 < lineIndex)]
  · rw [fatihaAdjust, if_pos hp, if_pos (by omega : 0 < lineIndex)]
  · rw [fatihaAdjust, if_pos hp, if_neg (by omega : ¬ (0:ℕ) > 0)]
  · rw [fatihaLineWidthRatio]
    ring_nf

/-- **C3 witness.** The reclassification and fan ratio at page 0, line 1,
starting from a centered title line. -/
theorem c3_fatiha_fan_geometry_witness :
    (fatihaAdjust 0 1 (QuranLine.mk "" LineType.sura JustType.center)).line_type
      = LineType.line
    ∧ (fatihaAdjust 0 1 (QuranLine.mk "" LineType.sura JustType.center)).just_type
      = JustType.just
    ∧ (fatihaAdjust 0 0 (QuranLine.mk "" LineType.sura JustType.center)).just_type
      = JustType.center
    ∧ fatihaLineWidthRatio 1
      = (0.9 * 17000 * Real.sin ((30 + (((1 : ℕ) : ℝ) - 1) * (180 - (30 + 22.5)) / 6)
          * Real.pi / 180)) / 17000 :=
  c3_fatiha_fan_geometry 0 1 (QuranLine.mk "" LineType.sura JustType.center)
    (Or.inl rfl) le_rfl

/-- **C5.** `quran_renderer_draw_page` leaves the buffer untouched when the
page index is outside `[0, 603]` or the pixel pointer is null, and every
metadata lookup returns its sentinel (`-1`, or `none` for the boolean-style
lookups) on out-of-range surah/ayah/page input; all the functions are total,
so no call aborts or throws. -/
theorem c5_guards_and_sentinels {Pix : Type}
    (render : EngineCore → ℤ → ℤ → ℤ → ℕ → ℤ → QuranRenderConfig → Pix → Pix)
    (renderer : Option QuranRendererState) (buffer : QuranPixelBuffer Pix)
    (pageIndex : ℤ) (config : Option QuranRenderConfig)
    (h : pageIndex < 0 ∨ 603 < pageIndex ∨ buffer.pixels = none) :
    (quran_renderer_draw_page render renderer buffer pageIndex config).2 = buffer
    ∧ (∀ s : ℤ, s < 1 ∨ s > 114 → quran_renderer_get_surah_start_page s = -1)
    ∧ (∀ s a : ℤ, s < 1 ∨ s > 114 ∨ a < 1 ∨ a > (surahDataAt s).ayahCount →
        quran_renderer_get_ayah_page s a = -1)
    ∧ (∀ s : ℤ, s < 1 ∨ s > 114 → quran_renderer_get_surah_info s = none)
    ∧ (∀ p : ℤ, p < 0 ∨ p > 603 → quran_renderer_get_page_location p = none)
    ∧ (∀ s : ℤ, s < 1 ∨ s > 114 → quran_renderer_get_ayah_count s = -1) := by
  refine ⟨?_, fun s hs => ?_, fun s a hsa => ?_, fun s hs => ?_, fun p hp => ?_,
    fun s hs => ?_⟩
  · obtain ⟨pix, bw, bh, bs, bf⟩ := buffer
    cases renderer with
    | none => rfl
    | some st =>
      cases pix with
      | none => rfl
      | some old =>
        have hg : pageIndex < 0 ∨ 604 ≤ pageIndex := by
          rcases h with h | h | h
          · exact Or.inl h
          · exact Or.inr (by omega)
          · exact absurd h (by simp)
        simp [quran_renderer_draw_page, hg]
  · rw [quran_renderer_get_surah_start_page, if_pos hs]
  · rw [quran_renderer_get_ayah_page]
    rcases hsa with h | h | h | h
    · rw [if_pos (Or.inl h)]
    · rw [if_pos (Or.inr h)]
    · by_cases hs : s < 1 ∨ s > 114
      · rw [if_pos hs]
      · rw [if_neg hs, if_pos (Or.inl h)]
    · by_cases hs : s < 1 ∨ s > 114
      · rw [if_pos hs]
      · rw [if_neg hs, if_pos (Or.inr h)]
  · rw [quran_renderer_get_surah_info, if_pos hs]
  · rw [quran_renderer_get_page_location, if_pos]
    rcases hp with h | h
    · exact Or.inl h
    · exact Or.inr (by omega)
  · rw [quran_renderer_get_ayah_count, if_pos hs]

/-- **C5 witness.** A concrete no-op call (null pixels, page −1) leaves the
buffer unchanged, and surah 0 yields the −1 sentinel. -/
theorem c5_guards_and_sentinels_witness :
    (quran_renderer_draw_page (fun _ _ _ _ _ _ _ _ => (0 : ℕ)) none
        (QuranPixelBuffer.mk none 10 10 40 0) (-1) none).2
      = QuranPixelBuffer.mk none 10 10 40 0
    ∧ quran_renderer_get_surah_start_page 0 = -1 := by
  have h := c5_guards_and_sentinels (fun _ _ _ _ _ _ _ _ => (0 : ℕ)) none
    (QuranPixelBuffer.mk none 10 10 40 0) (-1) none (Or.inl (by norm_num))
  exact ⟨h.1, h.2.1 0 (Or.inl (by norm_num))⟩

/-- **C6.** At construction the tajweed threshold becomes 152 exactly when
the font's GPOS lookup count exceeds 150, and otherwise stays at the
disabled sentinel `0xFFFF`; a glyph resolves to its embedded color only
when tajweed is active and its lookup index reaches the threshold, so for a
font with at most 150 lookups (every lookup index being below the lookup
count) no glyph ever resolves to an embedded color, whatever the tajweed
flag. -/
theorem c6_tajweed_threshold (gposLookupCount lookupIndex baseCodepoint : ℕ)
    (useTajweed : Bool) (defaultColor : HBColor)
    (hle : gposLookupCount ≤ 150) (hidx : lookupIndex < gposLookupCount) :
    detectTajweedColorIndex gposLookupCount = 0xFFFF
    ∧ (∀ c : ℕ, 150 < c → detectTajweedColorIndex c = 152)
    ∧ resolveGlyphColor useTajweed (detectTajweedColorIndex gposLookupCount)
        lookupIndex baseCodepoint defaultColor = defaultColor
    ∧ (∀ (tw : Bool) (thr idx b : ℕ) (d : HBColor), ¬(tw = true ∧ thr ≤ idx) →
        resolveGlyphColor tw thr idx b d = d) := by
  have hdet : detectTajweedColorIndex gposLookupCount = 0xFFFF := by
    rw [detectTajweedColorIndex, if_neg (by omega)]
  refine ⟨hdet, fun c hc => ?_, ?_, fun tw thr idx b d hn => ?_⟩
  · rw [detectTajweedColorIndex, if_pos hc]
  · rw [hdet, resolveGlyphColor, if_neg]
    rintro ⟨-, hge⟩
    omega
  · rw [resolveGlyphColor, if_neg]
    exact fun hc => hn ⟨hc.1, hc.2⟩

/-- **C6 witness.** A 140-lookup font (the DigitalKhattV2 case): threshold
stays `0xFFFF` and a glyph from lookup 10 keeps the default color even with
tajweed enabled. -/
theorem c6_tajweed_threshold_witness :
    detectTajweedColorIndex 140 = 0xFFFF
    ∧ resolveGlyphColor true (detectTajweedColorIndex 140) 10 0xAABBCCDD blackColor
      = blackColor := by
  have h := c6_tajweed_threshold 140 10 0xAABBCCDD true blackColor
    (by norm_num) (by norm_num)
  exact ⟨h.1, h.2.2.1⟩

set_option maxRecDepth 10000 in
/-- **C7.** The claimed metadata round-trip fails on the shipped tables.
`quran_renderer_get_surah_start_page` returns the *last* page whose start
lies in a mid-page-starting surah (its own comment says "find the first
page where this surah starts"): for surah 5 it returns 126 while ayah 1 of
surah 5 is on page 106.  Surahs 113 and 114 have no `PAGE_LOCATIONS` entry
at all (the table ends with surah 112 on page 603), so their start page is
the −1 error sentinel and `quran_renderer_get_ayah_page 114 6` returns 604,
outside the documented `[0, 603]` range; the last-ayah bound of the claim
fails for surah 112 as well. -/
theorem c7_metadata_roundtrip_bug :
    quran_renderer_get_surah_start_page 5 = 126
    ∧ quran_renderer_get_ayah_page 5 1 = 106
    ∧ ¬(quran_renderer_get_surah_start_page 5 ≤ quran_renderer_get_ayah_page 5 1)
    ∧ quran_renderer_get_surah_start_page 114 = -1
    ∧ quran_renderer_get_ayah_page 114 6 = 604
    ∧ quran_renderer_get_surah_start_page 113 = -1
    ∧ quran_renderer_get_ayah_page 112 4 = 603
    ∧ ¬(quran_renderer_get_ayah_page 112 4 ≤ quran_renderer_get_surah_start_page 113 - 1)
    ∧ ¬(quran_renderer_get_ayah_page 114 6 ≤ 603) := by
  decide

/-- **C9 counterexample.** The claim fails for a translucent background.
`drawPage` clears with `canvas->drawColor` under Skia's default SrcOver
blend (line 676), so with background `0x00000080` (black, alpha 128) an
observed background pixel starting at premultiplied red value 255 becomes
`(128·0 + 127·255)/255 = 127` after the first call and
`(128·0 + 127·127)/255 = 16129/255` after a second identical call: the two
outputs are not byte-identical. -/
theorem c9_translucent_background_counterexample :
    (quran_renderer_draw_page clearOnlyRender
        (quran_renderer_draw_page clearOnlyRender
          (some (QuranRendererState.mk (EngineCore.mk 1000 65535) true))
          (QuranPixelBuffer.mk (some (255 : ℚ)) 100 100 400 0) 0
          (some (QuranRenderConfig.mk true true 1 0x00000080 0 false 0 (-1)))).1
        (quran_renderer_draw_page clearOnlyRender
          (some (QuranRendererState.mk (EngineCore.mk 1000 65535) true))
          (QuranPixelBuffer.mk (some (255 : ℚ)) 100 100 400 0) 0
          (some (QuranRenderConfig.mk true true 1 0x00000080 0 false 0 (-1)))).2
        0 (some (QuranRenderConfig.mk true true 1 0x00000080 0 false 0 (-1)))).2.pixels
      ≠ (quran_renderer_draw_page clearOnlyRender
          (some (QuranRendererState.mk (EngineCore.mk 1000 65535) true))
          (QuranPixelBuffer.mk (some (255 : ℚ)) 100 100 400 0) 0
          (some (QuranRenderConfig.mk true true 1 0x00000080 0 false 0 (-1)))).2.pixels := by
  have hA : (0x00000080 : ℕ) &&& 0xFF = 128 := by decide
  have hR : ((0x00000080 : ℕ) >>> 24) &&& 0xFF = 0 := by decide
  simp only [quran_renderer_draw_page, resolveConfig, clearOnlyRender, blendSrcOver, hA, hR]
  norm_num

/-- **C9 amended.** Two consecutive `quran_renderer_draw_page` calls with
identical arguments produce byte-identical output whenever the rendered
pixels do not depend on the buffer's previous contents — which, at the
rasterization boundary, is exactly the opaque-background case: the only
stage of `drawPage` that reads the old pixels is the opening SrcOver
`drawColor` clear, and `blendSrcOver 255 c dst = c` (first conjunct) makes
that clear an overwrite when the background alpha is 255.  Under that
independence the guards are unchanged between the calls, the only mutable
engine field (`tajweed`) is overwritten with the same configuration-derived
value, and the second output equals the first. -/
theorem c9_draw_page_opaque_idempotent {Pix : Type}
    (render : EngineCore → ℤ → ℤ → ℤ → ℕ → ℤ → QuranRenderConfig → Pix → Pix)
    (renderer : Option QuranRendererState) (buffer : QuranPixelBuffer Pix)
    (pageIndex : ℤ) (config : Option QuranRenderConfig)
    (hindep : ∀ (core : EngineCore) (w h s : ℤ) (f : ℕ) (p : ℤ) (old old' : Pix),
        render core w h s f p (resolveConfig config) old
          = render core w h s f p (resolveConfig config) old') :
    (∀ c dst : ℚ, blendSrcOver 255 c dst = c)
    ∧ (quran_renderer_draw_page render
        (quran_renderer_draw_page render renderer buffer pageIndex config).1
        (quran_renderer_draw_page render renderer buffer pageIndex config).2
        pageIndex config).2
      = (quran_renderer_draw_page render renderer buffer pageIndex config).2 := by
  constructor
  · intro c dst
    rw [blendSrcOver]
    ring
  · obtain ⟨pix, bw, bh, bs, bf⟩ := buffer
    cases renderer with
    | none => rfl
    | some st =>
      cases pix with
      | none => rfl
      | some old =>
        by_cases hpage : pageIndex < 0 ∨ 604 ≤ pageIndex
        · simp [quran_renderer_draw_page, hpage]
        · simp [quran_renderer_draw_page, hpage]
          exact hindep _ _ _ _ _ _ _ _

/-- **C9 witness.** The amended statement at a concrete opaque clear-only
rasterizer (`blendSrcOver 255 200`, which overwrites every pixel with 200):
a second identical call on page 0 reproduces the first call's buffer, and
the opaque SrcOver blend ignores its destination (`blendSrcOver 255 7 3 =
7`). -/
theorem c9_draw_page_opaque_idempotent_witness :
    (∀ c dst : ℚ, blendSrcOver 255 c dst = c)
    ∧ (quran_renderer_draw_page (fun _ _ _ _ _ _ _ old => blendSrcOver 255 200 old)
        (quran_renderer_draw_page (fun _ _ _ _ _ _ _ old => blendSrcOver 255 200 old)
          (some (QuranRendererState.mk (EngineCore.mk 1000 65535) true))
          (QuranPixelBuffer.mk (some (42 : ℚ)) 100 100 400 0) 0 none).1
        (quran_renderer_draw_page (fun _ _ _ _ _ _ _ old => blendSrcOver 255 200 old)
          (some (QuranRendererState.mk (EngineCore.mk 1000 65535) true))
          (QuranPixelBuffer.mk (some (42 : ℚ)) 100 100 400 0) 0 none).2
        0 none).2
      = (quran_renderer_draw_page (fun _ _ _ _ _ _ _ old => blendSrcOver 255 200 old)
          (some (QuranRendererState.mk (EngineCore.mk 1000 65535) true))
          (QuranPixelBuffer.mk (some (42 : ℚ)) 100 100 400 0) 0 none).2 :=
  c9_draw_page_opaque_idempotent (fun _ _ _ _ _ _ _ old => blendSrcOver 255 200 old)
    (some (QuranRendererState.mk (EngineCore.mk 1000 65535) true))
    (QuranPixelBuffer.mk (some (42 : ℚ)) 100 100 400 0) 0 none
    (fun _ _ _ _ _ _ old old' => by simp only [blendSrcOver]; ring)

end QuranRenderer
